import Mathlib

/-!
Verification of the tinyio driver-contract layer: the socket domain model
(`SockAddr` and the integer-coded enums), the runtime-facing adapter
`netdeverWrapper` from netdev.go, and the SPI / PWM capability contracts.

Go machine integers are modelled as `Int` (for `int`, `int64`) and as
`Fin 256` / `Fin 65536` (for `uint8` / `uint16`); `uintptr` is a `Nat`
reduced mod 2^64 where a conversion from a signed value occurs. Go's
`error` interface value is `Option String` (`none` is a nil error).
-/

namespace Tinyio

/-- One byte, as stored in the `[2]byte` and `[4]byte` fields of `SockAddr`. -/
abbrev Byte := Fin 256

/-- Go `error` value: `none` models a nil error, `some s` an error whose
`Error()` method renders the string `s`. -/
abbrev GoError := Option String

/-- Go `type AddressFamily int`. -/
abbrev AddressFamily := Int

/-- Go `type SockType int`. -/
abbrev SockType := Int

/-- Go `type Protocol int`. -/
abbrev Protocol := Int

/-- Go `type SockFlags int`. -/
abbrev SockFlags := Int

/-- Go `type SockOpt int`. -/
abbrev SockOpt := Int

/-- Go `type SockOptLevel int`. -/
abbrev SockOptLevel := Int

/-- Go `type Sockfd int`. -/
abbrev Sockfd := Int

/-- Go `time.Duration`, an `int64` count of nanoseconds. -/
abbrev Duration := Int

/-- Go `uintptr`: an unsigned native-width (64-bit) integer. -/
abbrev Uintptr := Nat

/-- Go `type SockAddr struct { port [2]byte; ip [4]byte }`.
Both fields are stored in network (big-endian) byte order. -/
structure SockAddr where
  port : Byte × Byte
  ip : Byte × Byte × Byte × Byte
deriving DecidableEq, Repr

/-- The Go zero value `SockAddr{}`: port bytes `[0,0]`, ip bytes `[0,0,0,0]`. -/
def SockAddr.zero : SockAddr := ⟨(0, 0), (0, 0, 0, 0)⟩

/-- The serialized form of a `SockAddr`: its six bytes in declaration
order, 2-byte big-endian port first, then the 4-byte IPv4 address. -/
def SockAddr.bytes (a : SockAddr) : List Byte :=
  [a.port.1, a.port.2, a.ip.1, a.ip.2.1, a.ip.2.2.1, a.ip.2.2.2]

/-- Deserialization of a `SockAddr` from its byte form: succeeds exactly
on lists of six bytes, read in the same fixed order. -/
def SockAddr.ofBytes : List Byte → Option SockAddr
  | [p0, p1, i0, i1, i2, i3] => some ⟨(p0, p1), (i0, i1, i2, i3)⟩
  | _ => none

/-- The numeric port a `SockAddr` denotes under the documented network
(big-endian) byte order of its `port` field. -/
def SockAddr.portValue (a : SockAddr) : Nat :=
  256 * a.port.1.val + a.port.2.val

/-- The payload of a concrete runtime-native address (`net.Addr`
implementations such as `*net.TCPAddr` carry an IP and a port). -/
structure NetAddrData where
  port : Nat
  ip : Byte × Byte × Byte × Byte
deriving DecidableEq, Repr

/-- A Go `net.Addr` interface value: `none` models a nil interface. -/
abbrev NetAddr := Option NetAddrData

/-- Modelled from the spec: the `SockAddr` → runtime-native address
conversion presumed by the spec's round-trip property ("converting a
`SockAddr{port, ip}` to the runtime-native address form and back"). The
source has no such routine; this is its faithful reading: the 2-byte
big-endian port becomes the numeric port, the 4 IPv4 bytes are kept. -/
def sockAddrToNetAddr (a : SockAddr) : NetAddr :=
  some ⟨a.portValue, a.ip⟩

/-- Go `func netAddrToSockAddr(addr net.Addr) SockAddr { return SockAddr{} }`
from netdev.go: the argument is ignored and the zero value returned. -/
def netAddrToSockAddr (_addr : NetAddr) : SockAddr :=
  SockAddr.zero

/-- Conversion `AddressFamily(family)` applied by the adapter to the raw
`int` family code (Go named-type conversion: the value is unchanged). -/
def AddressFamily.ofInt (n : Int) : AddressFamily := n

/-- Conversion `SockType(sockType)` applied by the adapter to the raw
`uint8` socket-type code (widening to `int`: the value is unchanged). -/
def SockType.ofUInt8 (b : Fin 256) : SockType := (b.val : Int)

/-- Conversion `Protocol(protocol)` applied by the adapter to the raw
`int` protocol code (Go named-type conversion: the value is unchanged). -/
def Protocol.ofInt (n : Int) : Protocol := n

/-- Conversion `SockFlags(flags)` applied by the adapter to the raw
`uint16` flags (widening to `int`: the value is unchanged). -/
def SockFlags.ofUInt16 (b : Fin 65536) : SockFlags := (b.val : Int)

/-- Conversion `SockOpt(opt)` applied by the adapter to the raw `int`
option code (Go named-type conversion: the value is unchanged). -/
def SockOpt.ofInt (n : Int) : SockOpt := n

/-- Conversion `SockOptLevel(level)` applied by the adapter to the raw
`int` level code (Go named-type conversion: the value is unchanged). -/
def SockOptLevel.ofInt (n : Int) : SockOptLevel := n

/-- Conversion `Sockfd(sockfd)` from a `uintptr` descriptor: the 64 bits
are reinterpreted as a two's-complement signed integer. -/
def Sockfd.ofUintptr (p : Uintptr) : Sockfd :=
  let r : Nat := p % 2 ^ 64
  if r < 2 ^ 63 then (r : Int) else (r : Int) - 2 ^ 64

/-- Conversion `uintptr(fde)` of a driver descriptor back to the runtime's
`uintptr`: the two's-complement bits of the `int`, as an unsigned value. -/
def Uintptr.ofSockfd (fd : Sockfd) : Uintptr :=
  (fd % 2 ^ 64).toNat

/-- The driver-facing `Socketer` interface of netdev.go, as a record of
its methods. `V` is the dynamic (`interface{}`) type of `SetSockOpt`'s
option value. A driver is a value of this record; results are the pair
or error each Go method returns. -/
structure Socketer (V : Type) where
  socket : AddressFamily → SockType → Protocol → Sockfd × GoError
  bind : Sockfd → SockAddr → GoError
  connect : Sockfd → SockAddr → GoError
  listen : Sockfd → Int → GoError
  accept : Sockfd → SockAddr → GoError
  send : Sockfd → List Byte → SockFlags → Duration → Int × GoError
  sendTo : Sockfd → List Byte → SockFlags → SockAddr → Duration → Int × GoError
  recv : Sockfd → List Byte → SockFlags → Duration → Int × GoError
  recvFrom : Sockfd → List Byte → SockFlags → SockAddr → Duration → Int × GoError
  close : Sockfd → GoError
  setSockOpt : Sockfd → SockOptLevel → SockOpt → V → GoError

/-- `netdeverWrapper.Socket`: converts the raw family, socket-type and
protocol codes to their enum types, forwards to the wrapped driver, and
widens the returned descriptor to `uintptr`. -/
def netdeverWrapper.Socket {V : Type} (w : Socketer V)
    (family : Int) (sockType : Fin 256) (protocol : Int) : Uintptr × GoError :=
  let r := w.socket (AddressFamily.ofInt family) (SockType.ofUInt8 sockType)
    (Protocol.ofInt protocol)
  (Uintptr.ofSockfd r.1, r.2)

/-- `netdeverWrapper.Bind`: converts the descriptor and the `net.Addr`,
then forwards to the wrapped driver's `Bind`. -/
def netdeverWrapper.Bind {V : Type} (w : Socketer V)
    (sockfd : Uintptr) (addr : NetAddr) : GoError :=
  w.bind (Sockfd.ofUintptr sockfd) (netAddrToSockAddr addr)

/-- `netdeverWrapper.Connect`: converts the descriptor and the `net.Addr`,
then forwards to the wrapped driver's `Connect`. -/
def netdeverWrapper.Connect {V : Type} (w : Socketer V)
    (sockfd : Uintptr) (servaddr : NetAddr) : GoError :=
  w.connect (Sockfd.ofUintptr sockfd) (netAddrToSockAddr servaddr)

/-- `netdeverWrapper.Listen`: converts the descriptor and forwards the
backlog to the wrapped driver's `Listen`. -/
def netdeverWrapper.Listen {V : Type} (w : Socketer V)
    (sockfd : Uintptr) (backlog : Int) : GoError :=
  w.listen (Sockfd.ofUintptr sockfd) backlog

/-- `netdeverWrapper.Accept`: forwards to the wrapped driver's `Accept`
and returns the pair `(0, err)` — the new-descriptor field is the
placeholder 0 because the driver contract does not produce one. -/
def netdeverWrapper.Accept {V : Type} (w : Socketer V)
    (sockfd : Uintptr) (peer : NetAddr) : Uintptr × GoError :=
  (0, w.accept (Sockfd.ofUintptr sockfd) (netAddrToSockAddr peer))

/-- `netdeverWrapper.Send`: converts the descriptor and flags and forwards
buffer and timeout unchanged to the wrapped driver's `Send`. -/
def netdeverWrapper.Send {V : Type} (w : Socketer V)
    (sockfd : Uintptr) (buf : List Byte) (flags : Fin 65536)
    (timeout : Duration) : Int × GoError :=
  w.send (Sockfd.ofUintptr sockfd) buf (SockFlags.ofUInt16 flags) timeout

/-- `netdeverWrapper.Recv`: converts the descriptor and flags and forwards
buffer and timeout unchanged to the wrapped driver's `Recv`. -/
def netdeverWrapper.Recv {V : Type} (w : Socketer V)
    (sockfd : Uintptr) (buf : List Byte) (flags : Fin 65536)
    (timeout : Duration) : Int × GoError :=
  w.recv (Sockfd.ofUintptr sockfd) buf (SockFlags.ofUInt16 flags) timeout

/-- `netdeverWrapper.Close`: converts the descriptor and forwards to the
wrapped driver's `Close`. -/
def netdeverWrapper.Close {V : Type} (w : Socketer V)
    (sockfd : Uintptr) : GoError :=
  w.close (Sockfd.ofUintptr sockfd)

/-- `netdeverWrapper.SetSockOpt`: converts the descriptor, level and
option codes and passes the dynamically-typed option value through
unchanged to the wrapped driver's `SetSockOpt`. -/
def netdeverWrapper.SetSockOpt {V : Type} (w : Socketer V)
    (sockfd : Uintptr) (level opt : Int) (optionValue : V) : GoError :=
  w.setSockOpt (Sockfd.ofUintptr sockfd) (SockOptLevel.ofInt level)
    (SockOpt.ofInt opt) optionValue

/-- Argument kinds of the driver-facing `Socketer` methods, used to
transcribe each method's parameter list from its Go declaration. -/
inductive ArgKind
  | family | sockType | protocol | sockfd | addr | backlog | buffer
  | flags | timeout | optLevel | optName | optValue
deriving DecidableEq, Repr

/-- Parameter list of `Socket(family, sockType, protocol)`. -/
def socketSig : List ArgKind := [.family, .sockType, .protocol]

/-- Parameter list of `Bind(sockfd, myaddr)`. -/
def bindSig : List ArgKind := [.sockfd, .addr]

/-- Parameter list of `Connect(sockfd, servaddr)`. -/
def connectSig : List ArgKind := [.sockfd, .addr]

/-- Parameter list of `Listen(sockfd, backlog)`. -/
def listenSig : List ArgKind := [.sockfd, .backlog]

/-- Parameter list of `Accept(sockfd, peer)`: the peer address is an
input parameter and the method takes no timeout. -/
def acceptSig : List ArgKind := [.sockfd, .addr]

/-- Parameter list of `Send(sockfd, buff, flags, timeout)`. -/
def sendSig : List ArgKind := [.sockfd, .buffer, .flags, .timeout]

/-- Parameter list of `SendTo(sockfd, buff, flags, to, timeout)`. -/
def sendToSig : List ArgKind := [.sockfd, .buffer, .flags, .addr, .timeout]

/-- Parameter list of `Recv(sockfd, buff, flags, timeout)`. -/
def recvSig : List ArgKind := [.sockfd, .buffer, .flags, .timeout]

/-- Parameter list of `RecvFrom(sockfd, buff, flags, from, timeout)`. -/
def recvFromSig : List ArgKind := [.sockfd, .buffer, .flags, .addr, .timeout]

/-- Parameter list of `Close(sockfd)`. -/
def closeSig : List ArgKind := [.sockfd]

/-- Parameter list of `SetSockOpt(sockfd, level, opt, value)`. -/
def setSockOptSig : List ArgKind := [.sockfd, .optLevel, .optName, .optValue]

/-- Result of one SPI full-duplex transfer: the bytes that were clocked
out on the bus and the bytes captured into the receive buffer. -/
structure TxResult where
  transmitted : List Byte
  received : List Byte
deriving DecidableEq, Repr

/-- Modelled from the spec: the `SPI.Tx(w, r)` contract (the source only
declares the interface). `w` is the write buffer or `none` when nil, and
`rLen` the length of the receive buffer or `none` when nil; `peer` is
the stream of bytes the bus presents on the incoming line. Both buffers
present requires equal length; with `w` nil, `rLen` zero bytes are sent
while capturing; with `r` nil, exactly `w` is transmitted and nothing is
captured or waited for. -/
def SPI.Tx (w : Option (List Byte)) (rLen : Option Nat)
    (peer : Nat → Byte) : Except String TxResult :=
  match w, rLen with
  | none, none => .ok ⟨[], []⟩
  | some wb, none => .ok ⟨wb, []⟩
  | none, some n => .ok ⟨List.replicate n 0, (List.range n).map peer⟩
  | some wb, some n =>
    if wb.length = n then .ok ⟨wb, (List.range n).map peer⟩
    else .error "tinyio: SPI.Tx buffers must be the same length"

/-- Modelled from the spec: the observable state of a PWM peripheral (the
source only declares the interface): its counter top, the number of
implemented channels, and whether I/O to an external peripheral fails. -/
structure PWMDev where
  top : Nat
  numChannels : Nat
  ioFault : Bool
deriving DecidableEq, Repr

/-- Modelled from the spec: `PWM.Set(channel, value)` — errors are
signaled only for I/O failure to an external peripheral or for a channel
index beyond the implemented count, never for the value's range. -/
def PWMDev.Set (d : PWMDev) (channel : Fin 256) (_value : Nat) :
    Except String Unit :=
  if d.ioFault then .error "tinyio: PWM I/O failure"
  else if d.numChannels ≤ channel.val then
    .error "tinyio: PWM channel exceeds available channels"
  else .ok ()

/-- Helper: deserialization succeeds exactly on byte lists of length 6. -/
theorem ofBytes_isSome_iff (l : List Byte) :
    (SockAddr.ofBytes l).isSome ↔ l.length = 6 := by
  rcases l with _ | ⟨a, _ | ⟨b, _ | ⟨c, _ | ⟨d, _ | ⟨e, _ | ⟨f, _ | ⟨g, t⟩⟩⟩⟩⟩⟩⟩ <;>
    simp [SockAddr.ofBytes]

/-- Claim C1: the adapter's conversion routine, evaluated at the
runtime-native form of the address with port 8080 and IPv4 address
192.168.1.1, does not reproduce that port and address — `netAddrToSockAddr`
discards its argument and returns the zero `SockAddr`, so the round-trip
fails at this input. -/
theorem netAddrToSockAddr_roundtrip_fails :
    netAddrToSockAddr (sockAddrToNetAddr ⟨(0x1F, 0x90), (192, 168, 1, 1)⟩) =
      SockAddr.zero ∧
    netAddrToSockAddr (sockAddrToNetAddr ⟨(0x1F, 0x90), (192, 168, 1, 1)⟩) ≠
      ⟨(0x1F, 0x90), (192, 168, 1, 1)⟩ := by
  decide

/-- Claim C2: for every `net.Addr` input, including the nil interface,
`netAddrToSockAddr` returns the zero `SockAddr`, and hence the adapter's
`Bind` and `Connect` always forward the all-zero address to the wrapped
driver, whatever runtime-native address the caller supplied. -/
theorem bind_connect_forward_zero_addr {V : Type} (w : Socketer V)
    (sockfd : Uintptr) (addr servaddr : NetAddr) :
    netAddrToSockAddr addr = SockAddr.zero ∧
    netdeverWrapper.Bind w sockfd addr =
      w.bind (Sockfd.ofUintptr sockfd) SockAddr.zero ∧
    netdeverWrapper.Connect w sockfd servaddr =
      w.connect (Sockfd.ofUintptr sockfd) SockAddr.zero :=
  ⟨rfl, rfl, rfl⟩

/-- Claim C3: for every descriptor input and every wrapped driver, the
adapter's `Accept` returns the placeholder 0 in the new-connection
descriptor field and exactly the error value the wrapped driver's
`Accept` produced. -/
theorem accept_returns_zero_fd_and_driver_error {V : Type} (w : Socketer V)
    (sockfd : Uintptr) (peer : NetAddr) :
    (netdeverWrapper.Accept w sockfd peer).1 = 0 ∧
    (netdeverWrapper.Accept w sockfd peer).2 =
      w.accept (Sockfd.ofUintptr sockfd) (netAddrToSockAddr peer) :=
  ⟨rfl, rfl⟩

/-- Claim C4: for every adapter method — Socket, Bind, Connect, Listen,
Accept, Send, Recv, Close, SetSockOpt — and every input, the error the
adapter returns is exactly the error returned by the corresponding call
on the wrapped driver: nothing is swallowed, wrapped, replaced or added. -/
theorem wrapper_forwards_errors_unchanged {V : Type} (w : Socketer V)
    (sockfd : Uintptr) (family : Int) (sockType : Fin 256) (protocol : Int)
    (addr : NetAddr) (backlog : Int) (buf : List Byte) (flags : Fin 65536)
    (timeout : Duration) (level opt : Int) (v : V) :
    (netdeverWrapper.Socket w family sockType protocol).2 =
      (w.socket (AddressFamily.ofInt family) (SockType.ofUInt8 sockType)
        (Protocol.ofInt protocol)).2 ∧
    netdeverWrapper.Bind w sockfd addr =
      w.bind (Sockfd.ofUintptr sockfd) (netAddrToSockAddr addr) ∧
    netdeverWrapper.Connect w sockfd addr =
      w.connect (Sockfd.ofUintptr sockfd) (netAddrToSockAddr addr) ∧
    netdeverWrapper.Listen w sockfd backlog =
      w.listen (Sockfd.ofUintptr sockfd) backlog ∧
    (netdeverWrapper.Accept w sockfd addr).2 =
      w.accept (Sockfd.ofUintptr sockfd) (netAddrToSockAddr addr) ∧
    (netdeverWrapper.Send w sockfd buf flags timeout).2 =
      (w.send (Sockfd.ofUintptr sockfd) buf (SockFlags.ofUInt16 flags)
        timeout).2 ∧
    (netdeverWrapper.Recv w sockfd buf flags timeout).2 =
      (w.recv (Sockfd.ofUintptr sockfd) buf (SockFlags.ofUInt16 flags)
        timeout).2 ∧
    netdeverWrapper.Close w sockfd = w.close (Sockfd.ofUintptr sockfd) ∧
    netdeverWrapper.SetSockOpt w sockfd level opt v =
      w.setSockOpt (Sockfd.ofUintptr sockfd) (SockOptLevel.ofInt level)
        (SockOpt.ofInt opt) v :=
  ⟨rfl, rfl, rfl, rfl, rfl, rfl, rfl, rfl, rfl⟩

/-- Claim C5: for every integer family code, socket-type byte and protocol
code — including values outside the known enumerations — the adapter's
`Socket` converts them value-preservingly to the enum types and forwards
the call to the driver; no code is rejected at the boundary. -/
theorem socket_passes_codes_numerically {V : Type} (w : Socketer V)
    (family : Int) (sockType : Fin 256) (protocol : Int) :
    AddressFamily.ofInt family = family ∧
    SockType.ofUInt8 sockType = (sockType.val : Int) ∧
    Protocol.ofInt protocol = protocol ∧
    netdeverWrapper.Socket w family sockType protocol =
      (Uintptr.ofSockfd (w.socket family (sockType.val : Int) protocol).1,
        (w.socket family (sockType.val : Int) protocol).2) :=
  ⟨rfl, rfl, rfl, rfl⟩

/-- Claim C6: for every option value of any dynamic type `V`, the
adapter's `SetSockOpt` passes the identical value to the wrapped driver
unchanged, with the level and option codes converted to their numerically
equal enum values. -/
theorem setSockOpt_passes_value_unchanged {V : Type} (w : Socketer V)
    (sockfd : Uintptr) (level opt : Int) (v : V) :
    SockOptLevel.ofInt level = level ∧
    SockOpt.ofInt opt = opt ∧
    netdeverWrapper.SetSockOpt w sockfd level opt v =
      w.setSockOpt (Sockfd.ofUintptr sockfd) level opt v :=
  ⟨rfl, rfl, rfl⟩

/-- Claim C7 counterexample: it is not the case that all of Accept, Send,
SendTo, Recv and RecvFrom take an explicit wait-duration parameter — the
driver-facing `Accept(sockfd, peer)` has no timeout parameter. -/
theorem accept_sig_refutes_uniform_timeout :
    ¬ (ArgKind.timeout ∈ acceptSig ∧ ArgKind.timeout ∈ sendSig ∧
       ArgKind.timeout ∈ sendToSig ∧ ArgKind.timeout ∈ recvSig ∧
       ArgKind.timeout ∈ recvFromSig) := by
  decide

/-- Claim C7, amended: Send, SendTo, Recv and RecvFrom each accept an
explicit bounded wait duration, but `Accept` takes no timeout parameter —
its parameters are exactly the descriptor and a peer address supplied as
an input rather than produced. -/
theorem blocking_ops_timeout_params :
    ArgKind.timeout ∈ sendSig ∧ ArgKind.timeout ∈ sendToSig ∧
    ArgKind.timeout ∈ recvSig ∧ ArgKind.timeout ∈ recvFromSig ∧
    ArgKind.timeout ∉ acceptSig ∧
    acceptSig = [ArgKind.sockfd, ArgKind.addr] := by
  decide

/-- Claim C8: every `SockAddr` has a fixed 6-byte form — the 2-byte
network-byte-order port followed by the 4 IPv4 address bytes in order —
the serialization is lossless, and only 6-byte forms deserialize: there
is no variable-length form. -/
theorem sockAddr_six_byte_layout (a : SockAddr) :
    (SockAddr.bytes a).length = 6 ∧
    SockAddr.bytes a =
      [a.port.1, a.port.2, a.ip.1, a.ip.2.1, a.ip.2.2.1, a.ip.2.2.2] ∧
    SockAddr.ofBytes (SockAddr.bytes a) = some a ∧
    (∀ l : List Byte, (SockAddr.ofBytes l).isSome ↔ l.length = 6) :=
  ⟨rfl, rfl, rfl, ofBytes_isSome_iff⟩

/-- Claim C9: an SPI full-duplex transfer with the write buffer omitted
sends exactly `n` zero bytes while capturing `n` bus bytes into the
receive buffer; with the receive buffer omitted it transmits exactly `w`,
captures nothing, and its result does not depend on the peer's response
bytes (it does not block waiting for them). -/
theorem spi_tx_omitted_buffer_semantics (n : Nat) (wb : List Byte)
    (peer peer' : Nat → Byte) :
    SPI.Tx none (some n) peer =
      Except.ok ⟨List.replicate n 0, (List.range n).map peer⟩ ∧
    (List.replicate n (0 : Byte)).length = n ∧
    SPI.Tx (some wb) none peer = Except.ok ⟨wb, []⟩ ∧
    SPI.Tx (some wb) none peer = SPI.Tx (some wb) none peer' :=
  ⟨rfl, List.length_replicate n 0, rfl, rfl⟩

/-- Claim C10: `PWM.Set` fails exactly when I/O to the external peripheral
fails or the channel index is beyond the implemented count, and its
outcome is independent of the compare value — no value is rejected for
its range. -/
theorem pwm_set_error_conditions (d : PWMDev) (ch : Fin 256) (v v' : Nat) :
    (d.Set ch v = Except.ok () ↔
      (d.ioFault = false ∧ ch.val < d.numChannels)) ∧
    d.Set ch v = d.Set ch v' := by
  refine ⟨?_, rfl⟩
  by_cases hio : d.ioFault <;> by_cases hch : d.numChannels ≤ ch.val <;>
    simp [PWMDev.Set, hio, hch]
  omega

end Tinyio
